import Mathlib

/-!
Verification development for the payload outcome diagnosis engine of the
pilot repository (files `pilot/user/atlas/diagnose.py` and
`pilot/user/atlas/jobmetrics.py`).

Python strings are embedded as `List Char`, Python values (the dynamically
typed results of JSON parsing and of dictionary lookups) as the inductive
type `JVal`, and Python exceptions as the `PyErr` error type of `Except`.
Machine integers do not occur (Python integers are unbounded), so `Int` and
`Nat` are exact models.  Filesystem reads (file contents, tails,
modification times) are passed in explicitly as inputs.
-/

/-- Python strings are modelled as lists of characters. -/
abbrev Str := List Char

/-- Python exception kinds that the modelled code can raise or catch. -/
inductive PyErr where
  | typeError
  | valueError
  | zeroDivisionError
  | indexError
  | keyError
  deriving DecidableEq, Repr

/-- Python values: the dynamically-typed universe manipulated by the code
(`None`, integers, strings, lists, dicts).  Floats only occur in the hs06
rescale, where they are modelled exactly (see `add_features_hs06`). -/
inductive JVal where
  | jnull
  | jnum (n : Int)
  | jstr (s : Str)
  | jarr (elems : List JVal)
  | jobj (fields : List (Str × JVal))

open JVal

mutual

/-- Decidable equality on `JVal` (written by hand because the automatic
derivation does not handle the nested lists). -/
def jval_deq : (a b : JVal) → Decidable (a = b)
  | .jnull, .jnull => isTrue rfl
  | .jnull, .jnum _ => isFalse (fun h => JVal.noConfusion h)
  | .jnull, .jstr _ => isFalse (fun h => JVal.noConfusion h)
  | .jnull, .jarr _ => isFalse (fun h => JVal.noConfusion h)
  | .jnull, .jobj _ => isFalse (fun h => JVal.noConfusion h)
  | .jnum _, .jnull => isFalse (fun h => JVal.noConfusion h)
  | .jnum a, .jnum b =>
      if h : a = b then isTrue (by rw [h]) else isFalse (fun hc => by cases hc; exact h rfl)
  | .jnum _, .jstr _ => isFalse (fun h => JVal.noConfusion h)
  | .jnum _, .jarr _ => isFalse (fun h => JVal.noConfusion h)
  | .jnum _, .jobj _ => isFalse (fun h => JVal.noConfusion h)
  | .jstr _, .jnull => isFalse (fun h => JVal.noConfusion h)
  | .jstr _, .jnum _ => isFalse (fun h => JVal.noConfusion h)
  | .jstr a, .jstr b =>
      if h : a = b then isTrue (by rw [h]) else isFalse (fun hc => by cases hc; exact h rfl)
  | .jstr _, .jarr _ => isFalse (fun h => JVal.noConfusion h)
  | .jstr _, .jobj _ => isFalse (fun h => JVal.noConfusion h)
  | .jarr _, .jnull => isFalse (fun h => JVal.noConfusion h)
  | .jarr _, .jnum _ => isFalse (fun h => JVal.noConfusion h)
  | .jarr _, .jstr _ => isFalse (fun h => JVal.noConfusion h)
  | .jarr a, .jarr b =>
      match jarr_deq a b with
      | isTrue h => isTrue (by rw [h])
      | isFalse h => isFalse (fun hc => by cases hc; exact h rfl)
  | .jarr _, .jobj _ => isFalse (fun h => JVal.noConfusion h)
  | .jobj _, .jnull => isFalse (fun h => JVal.noConfusion h)
  | .jobj _, .jnum _ => isFalse (fun h => JVal.noConfusion h)
  | .jobj _, .jstr _ => isFalse (fun h => JVal.noConfusion h)
  | .jobj _, .jarr _ => isFalse (fun h => JVal.noConfusion h)
  | .jobj a, .jobj b =>
      match jobj_deq a b with
      | isTrue h => isTrue (by rw [h])
      | isFalse h => isFalse (fun hc => by cases hc; exact h rfl)

/-- Decidable equality on lists of `JVal`. -/
def jarr_deq : (a b : List JVal) → Decidable (a = b)
  | [], [] => isTrue rfl
  | [], _ :: _ => isFalse (fun h => List.noConfusion h)
  | _ :: _, [] => isFalse (fun h => List.noConfusion h)
  | x :: xs, y :: ys =>
      match jval_deq x y, jarr_deq xs ys with
      | isTrue h1, isTrue h2 => isTrue (by rw [h1, h2])
      | isFalse h1, _ => isFalse (fun hc => by cases hc; exact h1 rfl)
      | _, isFalse h2 => isFalse (fun hc => by cases hc; exact h2 rfl)

/-- Decidable equality on string-keyed association lists of `JVal`. -/
def jobj_deq : (a b : List (Str × JVal)) → Decidable (a = b)
  | [], [] => isTrue rfl
  | [], _ :: _ => isFalse (fun h => List.noConfusion h)
  | _ :: _, [] => isFalse (fun h => List.noConfusion h)
  | (k1, v1) :: xs, (k2, v2) :: ys =>
      if hk : k1 = k2 then
        match jval_deq v1 v2, jobj_deq xs ys with
        | isTrue h1, isTrue h2 => isTrue (by rw [hk, h1, h2])
        | isFalse h1, _ => isFalse (fun hc => by cases hc; exact h1 rfl)
        | _, isFalse h2 => isFalse (fun hc => by cases hc; exact h2 rfl)
      else isFalse (fun hc => by cases hc; exact hk rfl)

end

instance : DecidableEq JVal := jval_deq

/-- Python truthiness (`if x:`): `None`, `0`, empty string/list/dict are
falsy, everything else truthy. -/
def py_truthy : JVal → Bool
  | .jnull => false
  | .jnum n => decide (n ≠ 0)
  | .jstr s => !s.isEmpty
  | .jarr xs => !xs.isEmpty
  | .jobj fs => !fs.isEmpty

/-- Python `==` on the values compared by the code: structural equality,
which is `False` across types (int vs str), exact on ints and strings.
(The code never compares two dicts, where Python's order-insensitive dict
equality would differ from the structural one.) -/
def py_eq (a b : JVal) : Bool := decide (a = b)

/-- Digit-string accumulator used by `parse_int_string`. -/
def parse_nat_digits : Str → Nat → Option Nat
  | [], acc => some acc
  | c :: cs, acc => if c.isDigit then parse_nat_digits cs (acc * 10 + (c.toNat - 48)) else none

/-- Parse of a Python decimal integer literal string (optional sign followed
by at least one digit); `none` models the `ValueError` raised by
`int(...)`/`float(...)` on malformed input. -/
def parse_int_string : Str → Option Int
  | [] => none
  | '-' :: cs => if cs = [] then none else (parse_nat_digits cs 0).map (fun n => -(n : Int))
  | '+' :: cs => if cs = [] then none else (parse_nat_digits cs 0).map (fun n => (n : Int))
  | l => (parse_nat_digits l 0).map (fun n => (n : Int))

/-- Python `int(x)` (also covering `int(float(x))` for the integer-valued
numeric strings the code feeds it): integers pass through, numeric strings
are parsed (`ValueError` on failure), any other type raises `TypeError`. -/
def py_int : JVal → Except PyErr Int
  | .jnum n => .ok n
  | .jstr s =>
      match parse_int_string s with
      | some n => .ok n
      | none => .error .valueError
  | _ => .error .typeError

/-- Python `'%d' % v` string formatting: succeeds only for numbers,
raises `TypeError` otherwise. -/
def py_format_d : JVal → Except PyErr Unit
  | .jnum _ => .ok ()
  | _ => .error .typeError

/-- First-match association-list lookup, the model of `dict.get` /
`dict[...]` on the flat mappings used by the code. -/
def alist_get {α : Type} : List (Str × α) → Str → Option α
  | [], _ => none
  | (k, v) :: rest, key => if k = key then some v else alist_get rest key

/-- Membership of a key in a flat mapping (`key in dict`). -/
def alist_has {α : Type} (l : List (Str × α)) (key : Str) : Bool :=
  (alist_get l key).isSome

/-- Does the pattern occur at the very start of the string? -/
def str_starts_with : Str → Str → Bool
  | [], _ => true
  | _ :: _, [] => false
  | p :: ps, c :: cs => decide (p = c) && str_starts_with ps cs

/-- Python `pat in s` on strings: contiguous-substring occurrence test. -/
def str_contains_sub (pat : Str) : Str → Bool
  | [] => str_starts_with pat []
  | s@(_ :: cs) => str_starts_with pat s || str_contains_sub pat cs

/-- Python whitespace characters stripped by `str.lstrip()`/`str.rstrip()`
with no argument. -/
def py_is_space (c : Char) : Bool :=
  c = ' ' || c = '\t' || c = '\n' || c = '\x0d' || c = '\x0b' || c = '\x0c'

/-- Python `s.lstrip().rstrip()`. -/
def py_strip (s : Str) : Str :=
  ((s.dropWhile py_is_space).reverse.dropWhile py_is_space).reverse

/-- Python `s.split(" ")`: split on every single space, keeping empty
fragments; the result is always non-empty. -/
def py_split_sp : Str → List Str
  | [] => [[]]
  | c :: cs =>
      if c = ' ' then [] :: py_split_sp cs
      else
        match py_split_sp cs with
        | [] => [[c]]
        | t :: ts => (c :: t) :: ts

/-- Python `" ".join(parts)`. -/
def py_join_sp : List Str → Str
  | [] => []
  | [t] => t
  | t :: ts => t ++ ' ' :: py_join_sp (ts)

/-- The result of dropping the final space-separated fragment:
`" ".join(s.split(" ")[:-1])`, as performed by `get_job_metrics`. -/
def drop_last_fragment (s : Str) : Str :=
  py_join_sp ((py_split_sp s).dropLast)

/-- Model of `get_job_metrics` (jobmetrics.py): the assembled metrics
string (the output of `get_job_metrics_string`, abstracted as the input
since the claims concern the capping step) is stripped of surrounding
whitespace; if the result exceeds 500 characters it is truncated to 500
characters and the last (possibly partial) space-separated fragment is
dropped. -/
def get_job_metrics (job_metrics : Str) : Str :=
  let m := py_strip job_metrics
  if m.length > 500 then drop_last_fragment (m.take 500) else m

/-- Result tuple of `find_most_recent_and_oldest_summary_files`, in the
source's return order `(recent_summary_file, recent_time,
oldest_summary_file, oldest_time)`. -/
structure FmraoResult where
  recent_summary_file : Str
  recent_time : Nat
  oldest_summary_file : Str
  oldest_time : Nat
  deriving DecidableEq, Repr

/-- Loop body of `find_most_recent_and_oldest_summary_files`: each file's
modification time is compared against the running extremes (`>` for the
most recent, `<` for the oldest).  Files are given as (name, mtime) pairs;
the claims restrict attention to readable modification times, so the
per-file `except` branch of the source (which skips unreadable files) is
not exercised. -/
def fmrao_step (st : FmraoResult) (f : Str) (t : Nat) : FmraoResult :=
  let st1 := if t > st.recent_time then { st with recent_time := t, recent_summary_file := f } else st
  if t < st1.oldest_time then { st1 with oldest_time := t, oldest_summary_file := f } else st1

/-- The iteration of `fmrao_step` over the file list. -/
def fmrao_loop : List (Str × Nat) → FmraoResult → FmraoResult
  | [], st => st
  | (f, t) :: rest, st => fmrao_loop rest (fmrao_step st f t)

/-- Model of `find_most_recent_and_oldest_summary_files` (diagnose.py):
with more than one file the loop runs from the initial state
`recent_time = 0`, `oldest_time = 9999999999`, empty file names; otherwise
the single entry `file_list[0]` is returned as both (raising `IndexError`
on an empty list, as the subscript does in Python). -/
def find_most_recent_and_oldest_summary_files
    (file_list : List (Str × Nat)) : Except PyErr FmraoResult :=
  if file_list.length > 1 then
    .ok (fmrao_loop file_list ⟨[], 0, [], 9999999999⟩)
  else
    match file_list with
    | [] => .error .indexError
    | (f, t) :: _ => .ok ⟨f, t, f, t⟩

/-- The pilot error codes attached by the diagnosis engine (from the fixed
closed set used by diagnose.py; `NONE` is the default absence value). -/
inductive ErrCode where
  | NONE
  | PAYLOADOUTOFMEMORY
  | MISSINGINSTALLATION
  | NFSSQLITE
  | BADALLOC
  | NOUSERTARBALL
  deriving DecidableEq, Repr

/-- Modelled from the spec: the shared error-code table pairs each code
with a fixed human-readable diagnostic (the table lives in
`pilot/common/errorcodes.py`, which is not part of the shown sources). -/
def default_diag : ErrCode → Str
  | .NONE => []
  | .PAYLOADOUTOFMEMORY => ("payload ran out of memory").toList
  | .MISSINGINSTALLATION => ("missing installation").toList
  | .NFSSQLITE => ("NFS SQLite locking problem").toList
  | .BADALLOC => ("bad alloc").toList
  | .NOUSERTARBALL => ("user tarball could not be downloaded").toList

/-- The job-result fields read and written by the diagnosis engine
(a projection of the pilot job object onto the fields the shown code
touches). -/
structure Job where
  exitcode : JVal
  exitmsg : JVal
  piloterrorcodes : List ErrCode
  piloterrordiags : List Str
  piloterrorcode : ErrCode
  piloterrordiag : JVal
  nevents : Int
  neventsw : Int
  dbtime : JVal
  dbdata : JVal
  metadata : Option JVal
  deriving DecidableEq

/-- The on-disk artifacts and external extraction results consumed by one
interpretation pass.  File contents are modelled as optional line lists
(`none` = file missing); `stdout_tail` models the bounded tail read
performed by `pilot.util.filehandling.tail` (not in the shown sources;
per the spec it returns the final bytes, empty for a missing file).
`work_attributes` models the flat mapping returned by
`parse_jobreport_data` (pilot/user/atlas/common.py, not in the shown
sources; per the spec a flat key/value mapping with keys such as
`n_events`, `__db_time`, `__db_data`).  `xml_nevents` models the result
of `get_total_number_of_events(get_metadata_from_xml(...))` (metadata.py,
not in the shown sources).  `summary_counts` models the (read, written)
pair produced by the Athena summary file scan, whose file contents are
filesystem inputs. -/
structure Env where
  report : Option JVal
  stdout_lines : Option (List Str)
  stderr_lines : Option (List Str)
  stdout_tail : Str
  work_attributes : List (Str × JVal)
  xml_nevents : Int
  summary_counts : Int × Int
  deriving DecidableEq

/-- Modelled from the spec: `pilot.util.filehandling.grep(patterns, path)`
(not in the shown sources) returns, in file order, the lines in which any
of the given case-sensitive patterns matches; a missing file yields no
lines.  The patterns used by diagnose.py are plain substrings. -/
def grep_lines (patterns : List Str) (file : Option (List Str)) : List Str :=
  match file with
  | none => []
  | some lines => lines.filter (fun l => patterns.any (fun p => str_contains_sub p l))

/-- The stderr pattern of the out-of-memory detector. -/
def oom_stderr_patterns : List Str := [("FATAL out of memory: taking the application down").toList]

/-- The stdout patterns of the out-of-memory detector. -/
def oom_stdout_patterns : List Str := [("St9bad_alloc").toList, ("std::bad_alloc").toList]

/-- Model of `is_out_of_memory` (diagnose.py): the stderr file is scanned
for the FATAL out-of-memory line and the stdout file for the bad_alloc
markers; a file is scanned only when it exists and is non-empty, and any
match anywhere sets the flag. -/
def is_out_of_memory (env : Env) : Bool :=
  let scan := fun (file : Option (List Str)) (patterns : List Str) =>
    match file with
    | none => false
    | some lines => !lines.isEmpty && !(grep_lines patterns (some lines)).isEmpty
  scan env.stderr_lines oom_stderr_patterns || scan env.stdout_lines oom_stdout_patterns

/-- Model of `is_installation_error` (diagnose.py): the first 1024
characters of the stdout tail must start with `sh:` and contain both
`setup.sh` and `No such file or directory`. -/
def is_installation_error (env : Env) : Bool :=
  let res_tmp := env.stdout_tail.take 1024
  decide (res_tmp.take 3 = ("sh:").toList)
    && str_contains_sub ("setup.sh").toList res_tmp
    && str_contains_sub ("No such file or directory").toList res_tmp

/-- Model of `is_nfssqlite_locking_problem` (diagnose.py): a full-file grep
of stdout for the two locking messages. -/
def is_nfssqlite_locking_problem (env : Env) : Bool :=
  !(grep_lines [("prepare 5 database is locked").toList, ("Error SQLiteStatement").toList]
      env.stdout_lines).isEmpty

/-- Python subscript `d[key]` with a string key, with every failure mode
(missing key, non-dict receiver) collapsed to `none`; used where the
source catches the corresponding exceptions. -/
def jval_subscript_str (v : JVal) (key : Str) : Option JVal :=
  match v with
  | .jobj fs => alist_get fs key
  | _ => none

/-- Python subscript `a[0]`, with failures collapsed to `none`; used where
the source catches the corresponding exceptions. -/
def jval_subscript0 : JVal → Option JVal
  | .jarr (x :: _) => some x
  | _ => none

/-- Model of the guarded extraction
`executor[0].logfileReport.details.ERROR` of `get_job_report_errors`; any
missing intermediate key or wrong type is an exception the source catches,
yielding `none`. -/
def jval_error_details (md : JVal) : Option JVal := do
  let ex ← jval_subscript_str md ("executor").toList
  let first ← jval_subscript0 ex
  let lr ← jval_subscript_str first ("logfileReport").toList
  let det ← jval_subscript_str lr ("details").toList
  jval_subscript_str det ("ERROR").toList

/-- The message-collection loop of `get_job_report_errors`: `m['message']`
is appended for each entry until the first entry that is not a dict with a
`message` key (the Python exception aborts the loop there, keeping the
entries appended so far). -/
def collect_messages : List JVal → List JVal
  | [] => []
  | .jobj fs :: rest =>
      match alist_get fs ("message").toList with
      | some v => v :: collect_messages rest
      | none => []
  | _ :: _ => []

/-- Python membership `key in v`, as evaluated by
`'executor' in job_report_dictionary`: key lookup on dicts, element
membership on lists, substring on strings, `TypeError` otherwise. -/
def py_contains_key (key : Str) (v : JVal) : Except PyErr Bool :=
  match v with
  | .jobj fs => .ok (alist_has fs key)
  | .jarr xs => .ok (xs.contains (.jstr key))
  | .jstr s => .ok (str_contains_sub key s)
  | _ => .error .typeError

/-- Model of `get_job_report_errors` (diagnose.py): when the report has an
`executor` key the nested error-detail list is extracted (every failure
caught, yielding the empty list) and the `message` fields are collected. -/
def get_job_report_errors (md : JVal) : Except PyErr (List JVal) := do
  let _ ← py_contains_key ("reportVersion").toList md
  let has_executor ← py_contains_key ("executor").toList md
  if has_executor then
    match jval_error_details md with
    | none => .ok []
    | some details =>
        match details with
        | .jarr elems => .ok (collect_messages elems)
        | .jobj fs => .ok (collect_messages (fs.map (fun kv => .jstr kv.1)))
        | .jstr s => .ok (collect_messages (s.map (fun c => .jstr [c])))
        | _ => .ok []
  else
    .ok []

/-- Python `"bad_alloc" in m` for one collected message: substring test on
strings, element membership on lists, key membership on dicts, `TypeError`
on numbers and `None`. -/
def message_mentions_bad_alloc (m : JVal) : Except PyErr Bool :=
  match m with
  | .jstr s => .ok (str_contains_sub ("bad_alloc").toList s)
  | .jarr xs => .ok (xs.contains (.jstr ("bad_alloc").toList))
  | .jobj fs => .ok (fs.any (fun kv => decide (kv.1 = ("bad_alloc").toList)))
  | _ => .error .typeError

/-- Model of `is_bad_alloc` (diagnose.py): scan the collected messages for
the first one mentioning `bad_alloc`; it becomes the diagnostics. -/
def is_bad_alloc : List JVal → Except PyErr (Bool × JVal)
  | [] => .ok (false, .jstr [])
  | m :: rest => do
      let hit ← message_mentions_bad_alloc m
      if hit then .ok (true, m) else is_bad_alloc rest

/-- The `job.metadata['exitCode']` extraction of `process_job_report`:
defaults to `0` when the lookup raises (the source catches every
exception). -/
def md_exitcode (md : JVal) : JVal :=
  (jval_subscript_str md ("exitCode").toList).getD (.jnum 0)

/-- The `job.metadata['exitMsg']` extraction of `process_job_report`:
defaults to the empty string when the lookup raises. -/
def md_exitmsg (md : JVal) : JVal :=
  (jval_subscript_str md ("exitMsg").toList).getD (.jstr [])

/-- Modelled from the spec: `errors.add_error_code(code)` attaches the
classification to the job result as the authoritative code/diagnostic pair
of the pass (errorcodes.py is not among the shown sources; per the spec
the classification is computed once per interpretation pass and attached
to the JobResult). -/
def add_error_code (code : ErrCode) : List ErrCode × List Str :=
  ([code], [default_diag code])

/-- Model of `process_job_report` (diagnose.py): with no report file only
missing output-file GUIDs are generated (outside the modelled fields);
otherwise the report is attached as metadata, the compulsory `exitCode`
and `exitMsg` are extracted with defaults, and for a non-zero exit code
the error-detail messages are scanned for a bad_alloc failure, which
classifies BADALLOC with the matching message as diagnostic.
(`update_job_data`, from pilot/user/atlas/common.py and not among the
shown sources, updates output-file metadata and stage-out type only, none
of the modelled fields.) -/
def process_job_report (report : Option JVal) (job : Job) : Except PyErr Job :=
  match report with
  | none => .ok job
  | some md =>
      let job := { job with
        metadata := some md,
        exitcode := md_exitcode md,
        exitmsg := md_exitmsg md }
      if !(py_eq job.exitcode (.jnum 0)) then
        match get_job_report_errors md with
        | .error e => .error e
        | .ok job_report_errors =>
            match is_bad_alloc job_report_errors with
            | .error e => .error e
            | .ok (true, diagnostics) =>
                let (codes, diags) := add_error_code .BADALLOC
                .ok { job with
                  piloterrorcodes := codes,
                  piloterrordiags := diags,
                  piloterrorcode := .BADALLOC,
                  piloterrordiag := diagnostics }
            | .ok (false, _) => .ok job
      else
        .ok job

/-- A URL-shaped match of the pattern `(https?\:\/\/.+)` starting exactly
at the head of the string: the literal scheme followed by at least one
character other than a newline; the greedy `.+` extends to the end of the
line. -/
def url_match_here (l : Str) : Option Str :=
  if str_starts_with ("https://").toList l then
    match (l.drop 8).takeWhile (fun c => decide (c ≠ '\n')) with
    | [] => none
    | body => some (("https://").toList ++ body)
  else if str_starts_with ("http://").toList l then
    match (l.drop 7).takeWhile (fun c => decide (c ≠ '\n')) with
    | [] => none
    | body => some (("http://").toList ++ body)
  else none

/-- Leftmost match of `re.findall(r"(https?\:\/\/.+)", tail)[0]`: the scan
tries each position from the left and keeps the first successful match. -/
def find_url : Str → Option Str
  | [] => none
  | l@(_ :: cs) =>
      match url_match_here l with
      | some u => some u
      | none => find_url cs

/-- Model of `extract_tarball_url` (diagnose.py): defaults to the
`(source unknown)` placeholder; when the tail contains a scheme marker the
first URL-shaped match replaces it (no match leaves the placeholder). -/
def extract_tarball_url (the_tail : Str) : Str :=
  if str_contains_sub ("https://").toList the_tail
      || str_contains_sub ("http://").toList the_tail then
    match find_url the_tail with
    | some u => u
    | none => ("(source unknown)").toList
  else ("(source unknown)").toList

/-- Model of `set_error_nousertarball` (diagnose.py), including the
hard-coded line `_tail += 'http://someurl.se/path'` present in the source:
the stdout tail is extended with that fixed URL before the extraction, the
NOUSERTARBALL classification is attached and the diagnostic is formatted
around the extracted URL. -/
def set_error_nousertarball (env : Env) (job : Job) : Job :=
  let the_tail := env.stdout_tail ++ ("http://someurl.se/path").toList
  if !the_tail.isEmpty then
    let tarball_url := extract_tarball_url the_tail
    let (codes, diags) := add_error_code .NOUSERTARBALL
    { job with
      piloterrorcodes := codes,
      piloterrordiags := diags,
      piloterrorcode := .NOUSERTARBALL,
      piloterrordiag := .jstr (("User tarball ").toList ++ tarball_url
        ++ (" cannot be downloaded from PanDA server").toList) }
  else job

/-- Model of the `__db_data` handling of `find_db_info` (diagnose.py):
the work attribute is assigned WITHOUT any coercion — the source reads
`job.dbdata = work_attributes.get('__db_data')` under a
`try`/`except ValueError` that can never fire — and the field is then
logged with `'%d'` formatting (raising `TypeError` when it is not a
number). -/
def find_db_info_data (work_attributes : List (Str × JVal)) (job : Job) :
    Except PyErr Job :=
  match alist_get work_attributes ("__db_data").toList with
  | none => .ok job
  | some v =>
      match py_format_d v with
      | .ok _ => .ok { job with dbdata := v }
      | .error e => .error e

/-- Model of `find_db_info` (diagnose.py).  The `__db_time` work attribute
is coerced with `int(...)` inside a `try` that catches only `ValueError`
(a `TypeError` from a non-coercible type propagates), after which the
value is logged with `'%d'` formatting (raising `TypeError` when the field
is not a number); the `__db_data` handling is `find_db_info_data`. -/
def find_db_info (work_attributes : List (Str × JVal)) (job : Job) :
    Except PyErr Job :=
  match alist_get work_attributes ("__db_time").toList with
  | none => find_db_info_data work_attributes job
  | some v =>
      match py_int v with
      | .ok n =>
          match py_format_d (JVal.jnum n) with
          | .ok _ => find_db_info_data work_attributes { job with dbtime := .jnum n }
          | .error e => .error e
      | .error .valueError =>
          match py_format_d job.dbtime with
          | .ok _ => find_db_info_data work_attributes job
          | .error e => .error e
      | .error e => .error e

/-- Model of `find_number_of_events_in_jobreport` (diagnose.py): a truthy
`n_events` work attribute is coerced with `int(...)`; only a `ValueError`
is caught (leaving the field unchanged), while a `TypeError` from a
non-coercible truthy value propagates. -/
def find_number_of_events_in_jobreport (env : Env) (job : Job) : Except PyErr Job :=
  match alist_get env.work_attributes ("n_events").toList with
  | none => .ok job
  | some v =>
      if py_truthy v then
        match py_int v with
        | .ok n => .ok { job with nevents := n }
        | .error .valueError => .ok job
        | .error e => .error e
      else .ok job

/-- Model of `find_number_of_events_in_xml` (diagnose.py): a positive
total-event count from the XML metadata is stored. -/
def find_number_of_events_in_xml (env : Env) (job : Job) : Job :=
  if env.xml_nevents > 0 then { job with nevents := env.xml_nevents } else job

/-- Model of `find_number_of_events` (diagnose.py), instrumented with the
list of sources consulted (1 = jobReport, 2 = metadata.xml, 3 = Athena
summary files): each later source is consulted only when the job's event
count is still not positive after the earlier ones. -/
def find_number_of_events_traced (env : Env) (job : Job) :
    Except PyErr (Job × List Nat) := do
  let job ← find_number_of_events_in_jobreport env job
  if job.nevents > 0 then
    .ok (job, [1])
  else
    let job := find_number_of_events_in_xml env job
    if job.nevents > 0 then
      .ok (job, [1, 2])
    else
      let (n1, n2) := env.summary_counts
      let job := if n1 > 0 then { job with nevents := n1 } else job
      let job := if n2 > 0 then { job with neventsw := n2 } else job
      .ok (job, [1, 2, 3])

/-- `find_number_of_events` as called by the pipeline (the consultation
trace projected away). -/
def find_number_of_events (env : Env) (job : Job) : Except PyErr Job := do
  let (job, _) ← find_number_of_events_traced env job
  .ok job

/-- Model of `extract_special_information` (diagnose.py): event counts,
then DB info. -/
def extract_special_information (env : Env) (job : Job) : Except PyErr Job := do
  let job ← find_number_of_events env job
  find_db_info env.work_attributes job

/-- Model of `interpret_payload_exit_info` (diagnose.py): the short-circuit
battery out-of-memory → missing-installation → NFS/SQLite locking; the
first positive detector attaches its classification and returns. -/
def interpret_payload_exit_info (env : Env) (job : Job) : Job :=
  if is_out_of_memory env then
    let (codes, diags) := add_error_code .PAYLOADOUTOFMEMORY
    { job with piloterrorcodes := codes, piloterrordiags := diags }
  else if is_installation_error env then
    let (codes, diags) := add_error_code .MISSINGINSTALLATION
    { job with piloterrorcodes := codes, piloterrordiags := diags }
  else if is_nfssqlite_locking_problem env then
    let (codes, diags) := add_error_code .NFSSQLITE
    { job with piloterrorcodes := codes, piloterrordiags := diags }
  else job

/-- Model of `interpret` (diagnose.py): the job report is processed first
(which may classify BADALLOC), the exit code is taken from the job, the
special exit code 146 triggers `set_error_nousertarball`, special
information (events, DB metrics) is extracted, and finally
`interpret_payload_exit_info` runs its detector battery.  The returned
value is the payload exit code alongside the updated job;
`interpret_exit_code` is the `exit_code` local of the source (0 when the
job's exit code equals 0, the job's exit code otherwise). -/
def interpret_exit_code (j1 : Job) : JVal :=
  if py_eq j1.exitcode (.jnum 0) then .jnum 0 else j1.exitcode

/-- Model of `interpret` (diagnose.py), see `interpret_exit_code`. -/
def interpret (env : Env) (job : Job) : Except PyErr (Job × JVal) :=
  match process_job_report env.report job with
  | .error e => .error e
  | .ok j1 =>
      let exit_code := interpret_exit_code j1
      let j2 := if py_eq exit_code (.jnum 146) then set_error_nousertarball env j1 else j1
      match extract_special_information env j2 with
      | .error e => .error e
      | .ok j3 => .ok (interpret_payload_exit_info env j3, exit_code)

/-- Outcome of the hs06 rescale attempt inside `add_features`. -/
inductive Hs06Rescale where
  | skipped
  | rescaled (num : Int) (den : Int)
  deriving DecidableEq, Repr

/-- Model of the hs06-correction block of `add_features` (jobmetrics.py).
The guard is the source's own
`if hs06 and total_cpu and (total_cpu != '0' or total_cpu != 0)`, whose
third conjunct is a tautology (every value differs from at least one of
`'0'` and `0`).  Inside the `try`, `int(float(...))` conversion failures
(`TypeError`/`ValueError`) are caught and the rescale skipped, but the
division raises an uncaught `ZeroDivisionError` when the converted
`total_cpu` is zero.  The float quotient
`1.0*int(float(hs06))*perf_scale*corecount / (1.0*int(float(total_cpu)))`
is represented exactly by its integer numerator and denominator. -/
def add_features_hs06 (machinefeatures : List (Str × JVal)) (corecount : Int) :
    Except PyErr Hs06Rescale :=
  let hs06 := (alist_get machinefeatures ("hs06").toList).getD (.jnum 0)
  let total_cpu := (alist_get machinefeatures ("total_cpu").toList).getD (.jnum 0)
  if py_truthy hs06 && py_truthy total_cpu
      && (!(py_eq total_cpu (.jstr [('0')])) || !(py_eq total_cpu (.jnum 0))) then
    match py_int hs06 with
    | .error _ => .ok .skipped
    | .ok h =>
        match py_int total_cpu with
        | .error _ => .ok .skipped
        | .ok t =>
            if t = 0 then .error .zeroDivisionError
            else .ok (.rescaled (h * corecount) t)
  else .ok .skipped

/-- Does the error-detail scan of a report find a message mentioning
`bad_alloc` (without raising)? -/
def bad_alloc_flag (md : JVal) : Bool :=
  match get_job_report_errors md with
  | .error _ => false
  | .ok errs =>
      match is_bad_alloc errs with
      | .error _ => false
      | .ok (b, _) => b

/-- Does the bad-alloc-from-report detector fire?  True when a report is
present, its extracted exit code is non-zero, and the error-detail scan
finds a message mentioning `bad_alloc`. -/
def bad_alloc_case : Option JVal → Bool
  | none => false
  | some md => !(py_eq (md_exitcode md) (.jnum 0)) && bad_alloc_flag md

/-- Running maximum of the modification times, seeded with the initial
`recent_time` of the selection loop. -/
def fold_max_t (l : List (Str × Nat)) (a : Nat) : Nat :=
  l.foldl (fun acc p => max acc p.2) a

/-- Running minimum of the modification times, seeded with the initial
`oldest_time` of the selection loop. -/
def fold_min_t (l : List (Str × Nat)) (a : Nat) : Nat :=
  l.foldl (fun acc p => min acc p.2) a

/-- The truncation law of the metrics string: when the size-checked
(stripped) metrics string exceeds 500 characters, the returned string is
exactly the two-step truncation (cut at 500 characters, then drop the
final space-separated fragment), has length at most 500, is a strict
prefix of the metrics string, and ends at a space boundary (so it contains
no partial token). -/
def c2_truncation_prop (s : Str) : Prop :=
  get_job_metrics s = drop_last_fragment ((py_strip s).take 500) ∧
  (get_job_metrics s).length ≤ 500 ∧
  (get_job_metrics s).length < (py_strip s).length ∧
  (∃ r, py_strip s = get_job_metrics s ++ r) ∧
  (get_job_metrics s = [] ∨ ∃ r, py_strip s = get_job_metrics s ++ ' ' :: r)

/-- A 501-character metrics string (`a a a ... a`) used to exercise the
truncation law on a concrete input. -/
def c2_wit_str : Str := (List.replicate 250 ('a' :: ' ' :: [])).flatten ++ ['a']

/-- A job-result value with all modelled fields at their absence
defaults. -/
def job_default : Job :=
  { exitcode := .jnum 0, exitmsg := .jstr [], piloterrorcodes := [],
    piloterrordiags := [], piloterrorcode := .NONE, piloterrordiag := .jstr [],
    nevents := 0, neventsw := 0, dbtime := .jnum 0, dbdata := .jnum 0,
    metadata := none }

/-- The FATAL out-of-memory stderr line. -/
def fatal_oom_line : Str := ("FATAL out of memory: taking the application down").toList

/-- A job report with exit code 146 whose error details contain a
bad_alloc message: the input on which the claimed detector order and the
code's actual order disagree. -/
def c1_cex_report : JVal :=
  .jobj [(("exitCode").toList, .jnum 146),
         (("exitMsg").toList, .jstr ("tarball missing").toList),
         (("executor").toList, .jarr [
            .jobj [(("logfileReport").toList, .jobj [
              (("details").toList, .jobj [
                (("ERROR").toList, .jarr [
                  .jobj [(("message").toList, .jstr ("failure: bad_alloc caught").toList)]
                ])])])]])]

/-- Environment for the C1 counterexample: the 146 report above, no
stdout/stderr artifacts, empty stdout tail. -/
def c1_cex_env : Env :=
  { report := some c1_cex_report, stdout_lines := none, stderr_lines := none,
    stdout_tail := [], work_attributes := [], xml_nevents := 0,
    summary_counts := (0, 0) }

/-- The job produced by `interpret` on the C1 counterexample input. -/
def c1_cex_expected : Job :=
  { job_default with
    metadata := some c1_cex_report,
    exitcode := .jnum 146,
    exitmsg := .jstr ("tarball missing").toList,
    piloterrorcodes := [.NOUSERTARBALL],
    piloterrordiags := [default_diag .NOUSERTARBALL],
    piloterrorcode := .NOUSERTARBALL,
    piloterrordiag := .jstr (("User tarball http://someurl.se/path"
      ++ " cannot be downloaded from PanDA server").toList) }

/-- Environment for the C1 witness: no report, stdout containing an NFS
SQLite locking message. -/
def c1_wit_env : Env :=
  { report := none,
    stdout_lines := some [("blah Error SQLiteStatement blah").toList],
    stderr_lines := none, stdout_tail := [], work_attributes := [],
    xml_nevents := 0, summary_counts := (0, 0) }

/-- The job produced by `interpret` on the C1 witness input. -/
def c1_wit_expected : Job :=
  { job_default with
    piloterrorcodes := [.NFSSQLITE],
    piloterrordiags := [default_diag .NFSSQLITE] }

/-- Environment for the C3 bug exhibit: a 146 report and a stdout tail
that contains no URL at all. -/
def c3_env : Env :=
  { report := some (.jobj [(("exitCode").toList, .jnum 146)]),
    stdout_lines := none, stderr_lines := none,
    stdout_tail := ("transform output: no address here").toList,
    work_attributes := [], xml_nevents := 0, summary_counts := (0, 0) }

/-- The job produced by `interpret` on the C3 exhibit input: the
diagnostic carries the hard-coded URL appended by the source, not the
`(source unknown)` placeholder. -/
def c3_expected : Job :=
  { job_default with
    metadata := some (.jobj [(("exitCode").toList, .jnum 146)]),
    exitcode := .jnum 146,
    exitmsg := .jstr [],
    piloterrorcodes := [.NOUSERTARBALL],
    piloterrordiags := [default_diag .NOUSERTARBALL],
    piloterrorcode := .NOUSERTARBALL,
    piloterrordiag := .jstr (("User tarball http://someurl.se/path"
      ++ " cannot be downloaded from PanDA server").toList) }

/-- A job report with a non-zero exit code and two error-detail messages,
the second mentioning bad_alloc. -/
def c6_wit_md : JVal :=
  .jobj [(("exitCode").toList, .jnum 1),
         (("exitMsg").toList, .jstr ("err").toList),
         (("executor").toList, .jarr [
            .jobj [(("logfileReport").toList, .jobj [
              (("details").toList, .jobj [
                (("ERROR").toList, .jarr [
                  .jobj [(("message").toList, .jstr ("segfault").toList)],
                  .jobj [(("message").toList, .jstr ("alloc failure: bad_alloc").toList)]
                ])])])]])]

/-- Environment for the C7 witness: no report (so the reported exit code
stays 0) and a stderr consisting of the FATAL out-of-memory line. -/
def c7_wit_env : Env :=
  { report := none, stdout_lines := none,
    stderr_lines := some [fatal_oom_line],
    stdout_tail := [], work_attributes := [], xml_nevents := 0,
    summary_counts := (0, 0) }

/-- The job produced by `interpret` on the C7 witness input. -/
def c7_wit_expected : Job :=
  { job_default with
    piloterrorcodes := [.PAYLOADOUTOFMEMORY],
    piloterrordiags := [default_diag .PAYLOADOUTOFMEMORY] }

/-- Environment for the C9 witness: the job report carries the numeric
string `7` as `n_events`. -/
def c9_wit_env : Env :=
  { report := none, stdout_lines := none, stderr_lines := none,
    stdout_tail := [],
    work_attributes := [(("n_events").toList, .jstr ("7").toList)],
    xml_nevents := 0, summary_counts := (0, 0) }

/-- The job state after the first event-count source on the C9 witness
input. -/
def c9_wit_j1 : Job := { job_default with nevents := 7 }

/-- Summary files whose modification times reach the source's sentinel
initialisation `9999999999`: the oldest-file selection never fires. -/
def c8_cex_list : List (Str × Nat) :=
  [(("a").toList, 9999999999), (("b").toList, 10000000000)]

/-- Three summary files with distinct ordinary modification times. -/
def c8_wit_list : List (Str × Nat) :=
  [(("s1").toList, 300), (("s2").toList, 100), (("s3").toList, 200)]

/-- Two summary files whose modification times are both zero: the
most-recent selection (seeded with `recent_time = 0` and a strict `>`)
never fires. -/
def c10_cex_zero : List (Str × Nat) :=
  [(("x").toList, 0), (("y").toList, 0)]

/-- Two summary files at or above the sentinel: the oldest-file selection
never fires. -/
def c10_cex_sent : List (Str × Nat) :=
  [(("p").toList, 9999999999), (("q").toList, 10000000000)]

/-- Two summary files with ordinary positive modification times. -/
def c10_wit_list : List (Str × Nat) :=
  [(("t1").toList, 50), (("t2").toList, 40)]

/-! ### Theorems -/

theorem py_split_sp_ne_nil (l : Str) : py_split_sp l ≠ [] := by
  cases l with
  | nil => simp [py_split_sp]
  | cons c cs =>
    simp only [py_split_sp]
    split
    · simp
    · split <;> simp

theorem py_split_sp_length (l : Str) : (py_split_sp l).length = l.count ' ' + 1 := by
  induction l with
  | nil => simp [py_split_sp]
  | cons c cs ih =>
    simp only [py_split_sp]
    by_cases hc : c = ' '
    · rw [if_pos hc, hc]
      simp [List.count_cons, ih]
    · rw [if_neg hc]
      cases hsp : py_split_sp cs with
      | nil => exact absurd hsp (py_split_sp_ne_nil cs)
      | cons t ts =>
        rw [hsp] at ih
        have hbe : (c == ' ') = false := by simp [hc]
        simp [List.count_cons, hbe] at ih ⊢
        omega

theorem py_split_sp_no_space (l : Str) (h : ' ' ∉ l) : py_split_sp l = [l] := by
  induction l with
  | nil => rfl
  | cons c cs ih =>
    have hc : ¬(c = ' ') := fun e => h (by rw [e]; exact List.mem_cons_self _ _)
    have hcs : ' ' ∉ cs := fun m => h (List.mem_cons_of_mem _ m)
    simp only [py_split_sp, if_neg hc]
    rw [ih hcs]

theorem dlf_no_space (l : Str) (h : ' ' ∉ l) : drop_last_fragment l = [] := by
  unfold drop_last_fragment
  rw [py_split_sp_no_space l h]
  rfl

theorem py_split_sp_two_of_mem (cs : Str) (h : ' ' ∈ cs) :
    ∃ t u ts, py_split_sp cs = t :: u :: ts := by
  have hlen := py_split_sp_length cs
  have hpos : 0 < cs.count ' ' := List.count_pos_iff.mpr h
  match hsp2 : py_split_sp cs with
  | [] => exact absurd hsp2 (py_split_sp_ne_nil cs)
  | [t] => rw [hsp2] at hlen; simp at hlen; omega
  | t :: u :: ts => exact ⟨t, u, ts, rfl⟩

theorem dlf_space_head_no (cs : Str) (h : ' ' ∉ cs) :
    drop_last_fragment (' ' :: cs) = [] := by
  unfold drop_last_fragment
  simp only [py_split_sp, if_pos rfl]
  rw [py_split_sp_no_space cs h]
  rfl

theorem dlf_space_head_mem (cs : Str) (h : ' ' ∈ cs) :
    drop_last_fragment (' ' :: cs) = ' ' :: drop_last_fragment cs := by
  unfold drop_last_fragment
  obtain ⟨t, u, ts, hsp⟩ := py_split_sp_two_of_mem cs h
  simp only [py_split_sp, if_pos rfl]
  rw [hsp]
  cases ts with
  | nil => simp [py_join_sp, List.dropLast]
  | cons v ts2 => simp [py_join_sp, List.dropLast]

theorem dlf_cons_mem (c : Char) (cs : Str) (hc : ¬(c = ' ')) (h : ' ' ∈ cs) :
    drop_last_fragment (c :: cs) = c :: drop_last_fragment cs := by
  unfold drop_last_fragment
  obtain ⟨t, u, ts, hsp⟩ := py_split_sp_two_of_mem cs h
  simp only [py_split_sp, if_neg hc]
  rw [hsp]
  cases ts with
  | nil => simp [py_join_sp, List.dropLast]
  | cons v ts2 => simp [py_join_sp, List.dropLast]

theorem dlf_decomp (l : Str) (h : ' ' ∈ l) :
    ∃ r, l = drop_last_fragment l ++ ' ' :: r := by
  induction l with
  | nil => cases h
  | cons c cs ih =>
    by_cases hc : c = ' '
    · subst hc
      by_cases hcs : ' ' ∈ cs
      · obtain ⟨r, hr⟩ := ih hcs
        rw [dlf_space_head_mem cs hcs]
        exact ⟨r, by rw [List.cons_append, ← hr]⟩
      · rw [dlf_space_head_no cs hcs]
        exact ⟨cs, rfl⟩
    · have hcs : ' ' ∈ cs := by
        rcases List.mem_cons.mp h with h1 | h2
        · exact absurd h1.symm hc
        · exact h2
      obtain ⟨r, hr⟩ := ih hcs
      rw [dlf_cons_mem c cs hc hcs]
      exact ⟨r, by rw [List.cons_append, ← hr]⟩

/-- C2 (confirmed): for every assembled metrics string whose size-checked
(stripped) form exceeds 500 characters, `get_job_metrics` returns exactly
the two-step truncation — cut at 500 characters, then split on spaces and
discard the final fragment — so the output has length at most 500, is a
strict prefix of the metrics string, and ends at a space boundary of it
(or is empty when the 500-character cut contains no space), hence carries
no partial key=value token. -/
theorem c2_truncation_law (s : Str) (h : 500 < (py_strip s).length) :
    c2_truncation_prop s := by
  unfold c2_truncation_prop
  have hgm : get_job_metrics s = drop_last_fragment ((py_strip s).take 500) := by
    unfold get_job_metrics
    rw [if_pos (by omega)]
  have htlen : ((py_strip s).take 500).length = 500 := by
    rw [List.length_take]; omega
  have htapp : (py_strip s).take 500 ++ (py_strip s).drop 500 = py_strip s :=
    List.take_append_drop 500 (py_strip s)
  by_cases hsp : ' ' ∈ (py_strip s).take 500
  · obtain ⟨r, hr⟩ := dlf_decomp _ hsp
    have hlen2 : (drop_last_fragment ((py_strip s).take 500)).length + (r.length + 1) = 500 := by
      have hl := congrArg List.length hr
      simp [List.length_append] at hl
      omega
    have hkey := htapp.symm.trans (congrArg (fun x => x ++ (py_strip s).drop 500) hr)
    simp only [List.append_assoc, List.cons_append] at hkey
    refine ⟨hgm, by rw [hgm]; omega, by rw [hgm]; omega, ?_, ?_⟩
    · exact ⟨' ' :: (r ++ (py_strip s).drop 500), by rw [hgm]; exact hkey⟩
    · exact Or.inr ⟨r ++ (py_strip s).drop 500, by rw [hgm]; exact hkey⟩
  · have hz : drop_last_fragment ((py_strip s).take 500) = [] := dlf_no_space _ hsp
    refine ⟨hgm, by rw [hgm, hz]; simp, by rw [hgm, hz]; simp; omega, ?_, ?_⟩
    · exact ⟨py_strip s, by rw [hgm, hz]; simp⟩
    · left; rw [hgm, hz]

set_option maxRecDepth 100000 in
/-- Witness for C2: the truncation law evaluated on the concrete
501-character metrics string `a a ... a`. -/
theorem c2_truncation_law_witness :
    500 < (py_strip c2_wit_str).length ∧ c2_truncation_prop c2_wit_str :=
  ⟨by decide, c2_truncation_law c2_wit_str (by decide)⟩

theorem fmrao_step_recent_time (st : FmraoResult) (f : Str) (t : Nat) :
    (fmrao_step st f t).recent_time = max st.recent_time t := by
  unfold fmrao_step
  by_cases h1 : t > st.recent_time
  · simp only [if_pos h1]
    by_cases h2 : t < st.oldest_time
    · simp [if_pos h2]; omega
    · simp [if_neg h2]; omega
  · simp only [if_neg h1]
    by_cases h2 : t < st.oldest_time
    · simp [if_pos h2]; omega
    · simp [if_neg h2]; omega

theorem fmrao_step_oldest_time (st : FmraoResult) (f : Str) (t : Nat) :
    (fmrao_step st f t).oldest_time = min st.oldest_time t := by
  unfold fmrao_step
  by_cases h1 : t > st.recent_time
  · simp only [if_pos h1]
    by_cases h2 : t < st.oldest_time
    · simp [if_pos h2]; omega
    · simp [if_neg h2]; omega
  · simp only [if_neg h1]
    by_cases h2 : t < st.oldest_time
    · simp [if_pos h2]; omega
    · simp [if_neg h2]; omega

theorem fmrao_step_recent_pair (st : FmraoResult) (f : Str) (t : Nat) :
    ((fmrao_step st f t).recent_summary_file = st.recent_summary_file ∧
      (fmrao_step st f t).recent_time = st.recent_time) ∨
    ((fmrao_step st f t).recent_summary_file = f ∧
      (fmrao_step st f t).recent_time = t) := by
  unfold fmrao_step
  by_cases h1 : t > st.recent_time
  · simp only [if_pos h1]
    by_cases h2 : t < st.oldest_time
    · simp [if_pos h2]
    · simp [if_neg h2]
  · simp only [if_neg h1]
    by_cases h2 : t < st.oldest_time
    · simp [if_pos h2]
    · simp [if_neg h2]

theorem fmrao_step_oldest_pair (st : FmraoResult) (f : Str) (t : Nat) :
    ((fmrao_step st f t).oldest_summary_file = st.oldest_summary_file ∧
      (fmrao_step st f t).oldest_time = st.oldest_time) ∨
    ((fmrao_step st f t).oldest_summary_file = f ∧
      (fmrao_step st f t).oldest_time = t) := by
  unfold fmrao_step
  by_cases h1 : t > st.recent_time
  · simp only [if_pos h1]
    by_cases h2 : t < st.oldest_time
    · simp [if_pos h2]
    · simp [if_neg h2]
  · simp only [if_neg h1]
    by_cases h2 : t < st.oldest_time
    · simp [if_pos h2]
    · simp [if_neg h2]

theorem fmrao_loop_spec (l : List (Str × Nat)) : ∀ st : FmraoResult,
    (fmrao_loop l st).recent_time = fold_max_t l st.recent_time ∧
    (((fmrao_loop l st).recent_summary_file = st.recent_summary_file ∧
        (fmrao_loop l st).recent_time = st.recent_time) ∨
      ((fmrao_loop l st).recent_summary_file, (fmrao_loop l st).recent_time) ∈ l) ∧
    (fmrao_loop l st).oldest_time = fold_min_t l st.oldest_time ∧
    (((fmrao_loop l st).oldest_summary_file = st.oldest_summary_file ∧
        (fmrao_loop l st).oldest_time = st.oldest_time) ∨
      ((fmrao_loop l st).oldest_summary_file, (fmrao_loop l st).oldest_time) ∈ l) := by
  induction l with
  | nil =>
    intro st
    exact ⟨rfl, Or.inl ⟨rfl, rfl⟩, rfl, Or.inl ⟨rfl, rfl⟩⟩
  | cons p rest ih =>
    intro st
    obtain ⟨f, t⟩ := p
    have hloop : fmrao_loop ((f, t) :: rest) st = fmrao_loop rest (fmrao_step st f t) := rfl
    obtain ⟨ih1, ih2, ih3, ih4⟩ := ih (fmrao_step st f t)
    refine ⟨?_, ?_, ?_, ?_⟩
    · rw [hloop, ih1, fmrao_step_recent_time]
      rfl
    · rw [hloop]
      rcases ih2 with ⟨ha, hb⟩ | hmem
      · rcases fmrao_step_recent_pair st f t with ⟨hc, hd⟩ | ⟨hc, hd⟩
        · exact Or.inl ⟨ha.trans hc, hb.trans hd⟩
        · refine Or.inr ?_
          rw [ha, hc, hb, hd]
          exact List.mem_cons_self _ _
      · exact Or.inr (List.mem_cons_of_mem _ hmem)
    · rw [hloop, ih3, fmrao_step_oldest_time]
      rfl
    · rw [hloop]
      rcases ih4 with ⟨ha, hb⟩ | hmem
      · rcases fmrao_step_oldest_pair st f t with ⟨hc, hd⟩ | ⟨hc, hd⟩
        · exact Or.inl ⟨ha.trans hc, hb.trans hd⟩
        · refine Or.inr ?_
          rw [ha, hc, hb, hd]
          exact List.mem_cons_self _ _
      · exact Or.inr (List.mem_cons_of_mem _ hmem)

theorem fold_max_t_ge (l : List (Str × Nat)) : ∀ a : Nat,
    a ≤ fold_max_t l a ∧ ∀ p ∈ l, p.2 ≤ fold_max_t l a := by
  induction l with
  | nil => intro a; exact ⟨le_refl a, by simp⟩
  | cons q rest ih =>
    intro a
    obtain ⟨ih1, ih2⟩ := ih (max a q.2)
    have hstep : fold_max_t (q :: rest) a = fold_max_t rest (max a q.2) := rfl
    constructor
    · rw [hstep]; omega
    · intro p hp
      rcases List.mem_cons.mp hp with h1 | h2
      · rw [hstep, h1]; omega
      · rw [hstep]; exact ih2 p h2

theorem fold_min_t_le (l : List (Str × Nat)) : ∀ a : Nat,
    fold_min_t l a ≤ a ∧ ∀ p ∈ l, fold_min_t l a ≤ p.2 := by
  induction l with
  | nil => intro a; exact ⟨le_refl a, by simp⟩
  | cons q rest ih =>
    intro a
    obtain ⟨ih1, ih2⟩ := ih (min a q.2)
    have hstep : fold_min_t (q :: rest) a = fold_min_t rest (min a q.2) := rfl
    constructor
    · rw [hstep]; omega
    · intro p hp
      rcases List.mem_cons.mp hp with h1 | h2
      · rw [hstep, h1]; omega
      · rw [hstep]; exact ih2 p h2

/-- C8 (corrected): for every non-empty set of summary files with
distinct readable modification times all below the source's sentinel
initialisation 9999999999, the file selected as oldest is the one with the
minimum modification time and the file selected as most recent is the one
with the maximum; with exactly one file the same file is returned as both.
(The sentinel bound is the amendment: at or above it the oldest-file
selection never fires, see the counterexample.) -/
theorem c8_amended_minmax (l : List (Str × Nat)) (hne : l ≠ [])
    (hdist : l.Pairwise (fun p q => p.2 ≠ q.2))
    (hbound : ∀ p ∈ l, p.2 < 9999999999) :
    ∃ r, find_most_recent_and_oldest_summary_files l = .ok r ∧
      (r.oldest_summary_file, r.oldest_time) ∈ l ∧
      (∀ p ∈ l, r.oldest_time ≤ p.2) ∧
      (r.recent_summary_file, r.recent_time) ∈ l ∧
      (∀ p ∈ l, p.2 ≤ r.recent_time) ∧
      (l.length = 1 → r.recent_summary_file = r.oldest_summary_file ∧
        r.recent_time = r.oldest_time) := by
  unfold find_most_recent_and_oldest_summary_files
  by_cases hlen : l.length > 1
  · rw [if_pos hlen]
    obtain ⟨h1, h2, h3, h4⟩ := fmrao_loop_spec l ⟨[], 0, [], 9999999999⟩
    dsimp only at h1 h2 h3 h4
    refine ⟨fmrao_loop l ⟨[], 0, [], 9999999999⟩, rfl, ?_, ?_, ?_, ?_, ?_⟩
    · rcases h4 with ⟨_, hb⟩ | hmem
      · exfalso
        obtain ⟨p, rest, hl⟩ : ∃ p rest, l = p :: rest := by
          cases l with
          | nil => exact absurd rfl hne
          | cons p rest => exact ⟨p, rest, rfl⟩
        have hple := (fold_min_t_le l 9999999999).2 p (by rw [hl]; exact List.mem_cons_self _ _)
        have hpb := hbound p (by rw [hl]; exact List.mem_cons_self _ _)
        rw [← h3] at hple
        omega
      · exact hmem
    · intro p hp
      have := (fold_min_t_le l 9999999999).2 p hp
      omega
    · rcases h2 with ⟨_, hb⟩ | hmem
      · exfalso
        obtain ⟨p, q, rest, hl⟩ : ∃ p q rest, l = p :: q :: rest := by
          cases l with
          | nil => exact absurd rfl hne
          | cons p tl =>
            cases tl with
            | nil => simp at hlen
            | cons q rest => exact ⟨p, q, rest, rfl⟩
        have hp2 := (fold_max_t_ge l 0).2 p (by rw [hl]; exact List.mem_cons_self _ _)
        have hq2 := (fold_max_t_ge l 0).2 q
          (by rw [hl]; exact List.mem_cons_of_mem _ (List.mem_cons_self _ _))
        rw [← h1] at hp2 hq2
        have hne2 : p.2 ≠ q.2 := by
          rw [hl] at hdist
          exact (List.pairwise_cons.mp hdist).1 q (List.mem_cons_self _ _)
        omega
      · exact hmem
    · intro p hp
      have := (fold_max_t_ge l 0).2 p hp
      omega
    · intro he
      omega
  · rw [if_neg hlen]
    cases l with
    | nil => exact absurd rfl hne
    | cons p rest =>
      obtain ⟨f, t⟩ := p
      cases rest with
      | nil =>
        refine ⟨⟨f, t, f, t⟩, rfl, ?_, ?_, ?_, ?_, ?_⟩
        · exact List.mem_cons_self _ _
        · intro q hq
          rcases List.mem_cons.mp hq with h1 | h2
          · rw [h1]
          · cases h2
        · exact List.mem_cons_self _ _
        · intro q hq
          rcases List.mem_cons.mp hq with h1 | h2
          · rw [h1]
          · cases h2
        · intro _; exact ⟨rfl, rfl⟩
      | cons q rest2 => simp at hlen

/-- Counterexample to C8 as stated: two summary files with distinct
readable modification times 9999999999 and 10000000000; the minimum-time
file is `a`, yet the code returns the empty name (its initialisation
value) as the oldest summary file, because no time is below the sentinel
`oldest_time = 9999999999`. -/
theorem c8_counterexample :
    c8_cex_list.Pairwise (fun p q => p.2 ≠ q.2) ∧
    find_most_recent_and_oldest_summary_files c8_cex_list =
      .ok ⟨("b").toList, 10000000000, [], 9999999999⟩ ∧
    (∀ p ∈ c8_cex_list, 9999999999 ≤ p.2) ∧
    (("a").toList, (9999999999 : Nat)) ∈ c8_cex_list ∧
    ¬(([] : Str) = ("a").toList) := by
  refine ⟨by decide, rfl, by decide, by decide, by decide⟩

/-- Witness for C8: the amended selection law evaluated on three summary
files with distinct ordinary times. -/
theorem c8_amended_minmax_witness :
    (c8_wit_list ≠ []) ∧ c8_wit_list.Pairwise (fun p q => p.2 ≠ q.2) ∧
    (∀ p ∈ c8_wit_list, p.2 < 9999999999) ∧
    (∃ r, find_most_recent_and_oldest_summary_files c8_wit_list = .ok r ∧
      (r.oldest_summary_file, r.oldest_time) ∈ c8_wit_list ∧
      (∀ p ∈ c8_wit_list, r.oldest_time ≤ p.2) ∧
      (r.recent_summary_file, r.recent_time) ∈ c8_wit_list ∧
      (∀ p ∈ c8_wit_list, p.2 ≤ r.recent_time) ∧
      (c8_wit_list.length = 1 → r.recent_summary_file = r.oldest_summary_file ∧
        r.recent_time = r.oldest_time)) :=
  ⟨by decide, by decide, by decide,
    c8_amended_minmax c8_wit_list (by decide) (by decide) (by decide)⟩

/-- C10 (corrected): for every list of two or more summary files whose
modification times are readable, positive and below the sentinel
9999999999, the function returns an oldest timestamp at most the recent
timestamp and both returned file names are elements of the input list;
on the empty list it raises IndexError.  (The positivity and sentinel
bounds are the amendment: outside them a returned name can be the
initialisation value, absent from the input, see the counterexample.) -/
theorem c10_amended_invariants :
    (∀ l : List (Str × Nat), 2 ≤ l.length →
      (∀ p ∈ l, 0 < p.2 ∧ p.2 < 9999999999) →
      ∃ r, find_most_recent_and_oldest_summary_files l = .ok r ∧
        r.oldest_time ≤ r.recent_time ∧
        r.oldest_summary_file ∈ l.map Prod.fst ∧
        r.recent_summary_file ∈ l.map Prod.fst) ∧
    find_most_recent_and_oldest_summary_files [] = .error .indexError := by
  constructor
  · intro l hlen hbound
    unfold find_most_recent_and_oldest_summary_files
    rw [if_pos (by omega)]
    obtain ⟨h1, h2, h3, h4⟩ := fmrao_loop_spec l ⟨[], 0, [], 9999999999⟩
    dsimp only at h1 h2 h3 h4
    obtain ⟨p, q, rest, hl⟩ : ∃ p q rest, l = p :: q :: rest := by
      cases l with
      | nil => simp at hlen
      | cons p tl =>
        cases tl with
        | nil => simp at hlen
        | cons q rest => exact ⟨p, q, rest, rfl⟩
    have hpmem : p ∈ l := by rw [hl]; exact List.mem_cons_self _ _
    have holdmem : ((fmrao_loop l ⟨[], 0, [], 9999999999⟩).oldest_summary_file,
        (fmrao_loop l ⟨[], 0, [], 9999999999⟩).oldest_time) ∈ l := by
      rcases h4 with ⟨_, hb⟩ | hmem
      · exfalso
        have hple := (fold_min_t_le l 9999999999).2 p hpmem
        have hpb := (hbound p hpmem).2
        rw [← h3] at hple
        omega
      · exact hmem
    have hrecmem : ((fmrao_loop l ⟨[], 0, [], 9999999999⟩).recent_summary_file,
        (fmrao_loop l ⟨[], 0, [], 9999999999⟩).recent_time) ∈ l := by
      rcases h2 with ⟨_, hb⟩ | hmem
      · exfalso
        have hp2 := (fold_max_t_ge l 0).2 p hpmem
        have hpp := (hbound p hpmem).1
        rw [← h1] at hp2
        omega
      · exact hmem
    refine ⟨fmrao_loop l ⟨[], 0, [], 9999999999⟩, rfl, ?_, ?_, ?_⟩
    · have hle1 := (fold_min_t_le l 9999999999).2 p hpmem
      have hle2 := (fold_max_t_ge l 0).2 p hpmem
      omega
    · exact List.mem_map_of_mem Prod.fst holdmem
    · exact List.mem_map_of_mem Prod.fst hrecmem
  · rfl

/-- Counterexample to C10 as stated: with two readable modification
times both zero the returned most-recent name is the empty initialisation
value, not an element of the input; likewise for the oldest name when the
times reach the sentinel. -/
theorem c10_counterexample :
    find_most_recent_and_oldest_summary_files c10_cex_zero =
      .ok ⟨[], 0, ("x").toList, 0⟩ ∧
    ¬(([] : Str) ∈ c10_cex_zero.map Prod.fst) ∧
    find_most_recent_and_oldest_summary_files c10_cex_sent =
      .ok ⟨("q").toList, 10000000000, [], 9999999999⟩ ∧
    ¬(([] : Str) ∈ c10_cex_sent.map Prod.fst) := by
  refine ⟨rfl, by decide, rfl, by decide⟩

/-- Witness for C10: the amended invariants evaluated on two summary
files with ordinary positive times. -/
theorem c10_amended_invariants_witness :
    (2 ≤ c10_wit_list.length) ∧
    (∀ p ∈ c10_wit_list, 0 < p.2 ∧ p.2 < 9999999999) ∧
    (∃ r, find_most_recent_and_oldest_summary_files c10_wit_list = .ok r ∧
      r.oldest_time ≤ r.recent_time ∧
      r.oldest_summary_file ∈ c10_wit_list.map Prod.fst ∧
      r.recent_summary_file ∈ c10_wit_list.map Prod.fst) :=
  ⟨by decide, by decide, c10_amended_invariants.1 c10_wit_list (by decide) (by decide)⟩

theorem find_number_of_events_in_jobreport_codes (env : Env) (job j : Job)
    (h : find_number_of_events_in_jobreport env job = .ok j) :
    j.piloterrorcodes = job.piloterrorcodes := by
  unfold find_number_of_events_in_jobreport at h
  split at h
  · simp only [Except.ok.injEq] at h; subst h; rfl
  · split at h
    · split at h
      · simp only [Except.ok.injEq] at h; subst h; rfl
      · simp only [Except.ok.injEq] at h; subst h; rfl
      · exact Except.noConfusion h
    · simp only [Except.ok.injEq] at h; subst h; rfl

theorem find_number_of_events_in_xml_codes (env : Env) (job : Job) :
    (find_number_of_events_in_xml env job).piloterrorcodes = job.piloterrorcodes := by
  unfold find_number_of_events_in_xml
  split <;> rfl

theorem find_number_of_events_traced_codes (env : Env) (job j : Job) (tr : List Nat)
    (h : find_number_of_events_traced env job = .ok (j, tr)) :
    j.piloterrorcodes = job.piloterrorcodes := by
  unfold find_number_of_events_traced at h
  cases h1 : find_number_of_events_in_jobreport env job with
  | error e => rw [h1] at h; exact Except.noConfusion h
  | ok j1 =>
    rw [h1] at h
    simp only [bind, Except.bind] at h
    have hc1 := find_number_of_events_in_jobreport_codes env job j1 h1
    split at h
    · simp only [Except.ok.injEq, Prod.mk.injEq] at h
      rw [← h.1, hc1]
    · split at h
      · simp only [Except.ok.injEq, Prod.mk.injEq] at h
        rw [← h.1, find_number_of_events_in_xml_codes, hc1]
      · simp only [Except.ok.injEq, Prod.mk.injEq] at h
        obtain ⟨hj, -⟩ := h
        subst hj
        split <;> split <;>
          simp [find_number_of_events_in_xml_codes, hc1]

theorem find_db_info_data_codes (wa : List (Str × JVal)) (job j : Job)
    (h : find_db_info_data wa job = .ok j) :
    j.piloterrorcodes = job.piloterrorcodes := by
  unfold find_db_info_data at h
  split at h
  · simp only [Except.ok.injEq] at h; subst h; rfl
  · split at h
    · simp only [Except.ok.injEq] at h; subst h; rfl
    · exact Except.noConfusion h

theorem find_db_info_codes (wa : List (Str × JVal)) (job j : Job)
    (h : find_db_info wa job = .ok j) :
    j.piloterrorcodes = job.piloterrorcodes := by
  unfold find_db_info at h
  split at h
  · exact find_db_info_data_codes wa job j h
  · split at h
    · split at h
      · exact (find_db_info_data_codes wa _ j h).trans rfl
      · exact Except.noConfusion h
    · split at h
      · exact find_db_info_data_codes wa job j h
      · exact Except.noConfusion h
    · exact Except.noConfusion h

theorem extract_special_information_codes (env : Env) (job j : Job)
    (h : extract_special_information env job = .ok j) :
    j.piloterrorcodes = job.piloterrorcodes := by
  unfold extract_special_information find_number_of_events at h
  cases h1 : find_number_of_events_traced env job with
  | error e => rw [h1] at h; exact Except.noConfusion h
  | ok p =>
    obtain ⟨j1, tr⟩ := p
    rw [h1] at h
    simp only [bind, Except.bind] at h
    have hc1 := find_number_of_events_traced_codes env job j1 tr h1
    rw [find_db_info_codes env.work_attributes j1 j h, hc1]

theorem set_error_nousertarball_codes (env : Env) (job : Job) :
    (set_error_nousertarball env job).piloterrorcodes = [ErrCode.NOUSERTARBALL] := by
  have hemp : (env.stdout_tail ++ ("http://someurl.se/path").toList).isEmpty = false := by
    cases env.stdout_tail with
    | nil => rfl
    | cons c cs => rfl
  simp [set_error_nousertarball, add_error_code, hemp]

theorem interpret_payload_exit_info_codes (env : Env) (j : Job) :
    (interpret_payload_exit_info env j).piloterrorcodes =
      if is_out_of_memory env then [ErrCode.PAYLOADOUTOFMEMORY]
      else if is_installation_error env then [ErrCode.MISSINGINSTALLATION]
      else if is_nfssqlite_locking_problem env then [ErrCode.NFSSQLITE]
      else j.piloterrorcodes := by
  unfold interpret_payload_exit_info add_error_code
  by_cases h1 : is_out_of_memory env
  · simp [h1]
  · by_cases h2 : is_installation_error env
    · simp [h1, h2]
    · by_cases h3 : is_nfssqlite_locking_problem env
      · simp [h1, h2, h3]
      · simp [h1, h2, h3]

theorem process_job_report_codes (rep : Option JVal) (job j1 : Job)
    (h : process_job_report rep job = .ok j1) :
    j1.piloterrorcodes =
      if bad_alloc_case rep then [ErrCode.BADALLOC] else job.piloterrorcodes := by
  cases rep with
  | none =>
    simp only [process_job_report, Except.ok.injEq] at h
    subst h
    rfl
  | some md =>
    simp only [process_job_report] at h
    simp only [bad_alloc_case]
    by_cases hb : py_eq (md_exitcode md) (.jnum 0) = true
    case pos =>
      simp only [hb, Bool.not_true, Bool.false_eq_true, if_false, Except.ok.injEq] at h
      subst h
      simp [hb]
    case neg =>
      have hb2 : py_eq (md_exitcode md) (.jnum 0) = false := by
        cases hx : py_eq (md_exitcode md) (.jnum 0)
        · rfl
        · exact absurd hx hb
      simp only [hb2, Bool.not_false, if_true] at h
      cases hge : get_job_report_errors md with
      | error e => rw [hge] at h; exact Except.noConfusion h
      | ok errs =>
        rw [hge] at h
        dsimp only at h
        cases hba : is_bad_alloc errs with
        | error e => rw [hba] at h; exact Except.noConfusion h
        | ok p =>
          obtain ⟨b, d⟩ := p
          rw [hba] at h
          have hflag : bad_alloc_flag md = b := by
            simp only [bad_alloc_flag, hge, hba]
          cases b with
          | true =>
            simp only [add_error_code, Except.ok.injEq] at h
            subst h
            simp [hb2, hflag, add_error_code]
          | false =>
            simp only [Except.ok.injEq] at h
            subst h
            simp [hb2, hflag]


theorem interpret_codes (env : Env) (job j : Job) (ex : JVal)
    (h : interpret env job = .ok (j, ex)) :
    j.piloterrorcodes =
      if is_out_of_memory env then [ErrCode.PAYLOADOUTOFMEMORY]
      else if is_installation_error env then [ErrCode.MISSINGINSTALLATION]
      else if is_nfssqlite_locking_problem env then [ErrCode.NFSSQLITE]
      else if py_eq ex (.jnum 146) then [ErrCode.NOUSERTARBALL]
      else if bad_alloc_case env.report then [ErrCode.BADALLOC]
      else job.piloterrorcodes := by
  unfold interpret at h
  cases hp : process_job_report env.report job with
  | error e => rw [hp] at h; exact Except.noConfusion h
  | ok j1 =>
    rw [hp] at h
    dsimp only at h
    split at h
    case h_1 e heq => exact Except.noConfusion h
    case h_2 j3 heq =>
      simp only [Except.ok.injEq, Prod.mk.injEq] at h
      obtain ⟨hj, hex⟩ := h
      subst hj
      subst hex
      rw [interpret_payload_exit_info_codes]
      by_cases h1 : is_out_of_memory env = true
      · simp [h1]
      · simp only [Bool.not_eq_true] at h1
        by_cases h2 : is_installation_error env = true
        · simp [h1, h2]
        · simp only [Bool.not_eq_true] at h2
          by_cases h3 : is_nfssqlite_locking_problem env = true
          · simp [h1, h2, h3]
          · simp only [Bool.not_eq_true] at h3
            simp only [h1, h2, h3, Bool.false_eq_true, if_false]
            have hc3 := extract_special_information_codes env _ j3 heq
            by_cases h146 : py_eq (interpret_exit_code j1) (.jnum 146) = true
            · simp only [h146, if_pos] at hc3 ⊢
              rw [hc3]
              exact set_error_nousertarball_codes env j1
            · have h146f : py_eq (interpret_exit_code j1) (.jnum 146) = false := by
                cases hx : py_eq (interpret_exit_code j1) (.jnum 146)
                · rfl
                · exact absurd hx h146
              simp only [h146f, Bool.false_eq_true, if_false] at hc3 ⊢
              rw [hc3]
              exact process_job_report_codes env.report job j1 hp

theorem str_starts_with_self (p : Str) : str_starts_with p p = true := by
  induction p with
  | nil => rfl
  | cons c cs ih => simp [str_starts_with, ih]

theorem str_contains_sub_self (p : Str) : str_contains_sub p p = true := by
  cases p with
  | nil => rfl
  | cons c cs => simp [str_contains_sub, str_starts_with_self]

/-- C1 (corrected): whenever `interpret` completes, the authoritative
classification equals the first positive detector in the effective
priority order out-of-memory, missing-installation, NFS/SQLite-locking,
missing-user-tarball (exit code 146), bad-alloc-from-report — i.e. the
claimed order with the last two detectors swapped: the no-user-tarball
check runs after (and overwrites) the bad-alloc classification made by
`process_job_report`. -/
theorem c1_amended_priority_order (env : Env) (job j : Job) (ex : JVal)
    (h : interpret env job = .ok (j, ex)) :
    j.piloterrorcodes =
      if is_out_of_memory env then [ErrCode.PAYLOADOUTOFMEMORY]
      else if is_installation_error env then [ErrCode.MISSINGINSTALLATION]
      else if is_nfssqlite_locking_problem env then [ErrCode.NFSSQLITE]
      else if py_eq ex (.jnum 146) then [ErrCode.NOUSERTARBALL]
      else if bad_alloc_case env.report then [ErrCode.BADALLOC]
      else job.piloterrorcodes :=
  interpret_codes env job j ex h

/-- Counterexample to C1 as stated: on a job report with exit code 146
whose error details mention bad_alloc (and no out-of-memory, installation
or locking signal), the claimed order makes BAD_ALLOC — the first positive
detector — authoritative, but the code ends the pass with NO_USER_TARBALL:
`set_error_nousertarball` runs after `process_job_report` and overwrites
the BADALLOC classification. -/
theorem c1_counterexample :
    is_out_of_memory c1_cex_env = false ∧
    is_installation_error c1_cex_env = false ∧
    is_nfssqlite_locking_problem c1_cex_env = false ∧
    bad_alloc_case c1_cex_env.report = true ∧
    interpret c1_cex_env job_default = .ok (c1_cex_expected, .jnum 146) ∧
    c1_cex_expected.piloterrorcodes = [ErrCode.NOUSERTARBALL] ∧
    ¬([ErrCode.NOUSERTARBALL] = [ErrCode.BADALLOC]) :=
  ⟨rfl, rfl, rfl, rfl, rfl, rfl, by decide⟩

/-- Witness for C1: the amended priority order evaluated on a concrete
environment whose stdout shows an NFS/SQLite locking message. -/
theorem c1_amended_priority_order_witness :
    interpret c1_wit_env job_default = .ok (c1_wit_expected, .jnum 0) ∧
    c1_wit_expected.piloterrorcodes =
      (if is_out_of_memory c1_wit_env then [ErrCode.PAYLOADOUTOFMEMORY]
       else if is_installation_error c1_wit_env then [ErrCode.MISSINGINSTALLATION]
       else if is_nfssqlite_locking_problem c1_wit_env then [ErrCode.NFSSQLITE]
       else if py_eq (.jnum 0) (.jnum 146) then [ErrCode.NOUSERTARBALL]
       else if bad_alloc_case c1_wit_env.report then [ErrCode.BADALLOC]
       else job_default.piloterrorcodes) :=
  ⟨rfl, c1_amended_priority_order c1_wit_env job_default c1_wit_expected (.jnum 0) rfl⟩

/-- C7 (confirmed): for every job whose stderr file contains the line
`FATAL out of memory: taking the application down`, the interpretation
pass (whenever it completes) classifies the job OUT_OF_MEMORY, regardless
of the reported payload exit code — the exit code and report are
universally quantified, covering exit code 0. -/
theorem c7_out_of_memory_regardless (env : Env) (job j : Job) (ex : JVal) (ls : List Str)
    (henv : env.stderr_lines = some ls)
    (hmem : fatal_oom_line ∈ ls)
    (h : interpret env job = .ok (j, ex)) :
    j.piloterrorcodes = [ErrCode.PAYLOADOUTOFMEMORY] := by
  have hgrep : grep_lines oom_stderr_patterns (some ls) ≠ [] := by
    unfold grep_lines
    intro hcontra
    dsimp only at hcontra
    have hmemf : fatal_oom_line ∈
        ls.filter (fun l => oom_stderr_patterns.any (fun p => str_contains_sub p l)) := by
      apply List.mem_filter.mpr
      refine ⟨hmem, ?_⟩
      simp only [oom_stderr_patterns, List.any_cons, List.any_nil, Bool.or_false]
      exact str_contains_sub_self fatal_oom_line
    rw [hcontra] at hmemf
    cases hmemf
  have hoom : is_out_of_memory env = true := by
    unfold is_out_of_memory
    rw [henv]
    dsimp only
    cases ls with
    | nil => cases hmem
    | cons a as =>
      cases hg : grep_lines oom_stderr_patterns (some (a :: as)) with
      | nil => exact absurd hg hgrep
      | cons b bs => simp [hg]
  rw [interpret_codes env job j ex h, hoom]
  simp

/-- Witness for C7: a concrete environment with no report (exit code 0)
and a stderr holding exactly the FATAL out-of-memory line is classified
OUT_OF_MEMORY. -/
theorem c7_out_of_memory_regardless_witness :
    c7_wit_env.stderr_lines = some [fatal_oom_line] ∧
    fatal_oom_line ∈ [fatal_oom_line] ∧
    interpret c7_wit_env job_default = .ok (c7_wit_expected, .jnum 0) ∧
    c7_wit_expected.piloterrorcodes = [ErrCode.PAYLOADOUTOFMEMORY] :=
  ⟨rfl, List.mem_cons_self _ _, rfl,
    c7_out_of_memory_regardless c7_wit_env job_default c7_wit_expected (.jnum 0)
      [fatal_oom_line] rfl (List.mem_cons_self _ _) rfl⟩

theorem is_bad_alloc_jstr (strs : List Str) :
    is_bad_alloc (strs.map .jstr) =
      .ok (match strs.find? (fun s => str_contains_sub ("bad_alloc").toList s) with
           | some d => (true, .jstr d)
           | none => (false, .jstr [])) := by
  induction strs with
  | nil => rfl
  | cons s rest ih =>
    rw [List.map_cons]
    have hstep : is_bad_alloc (JVal.jstr s :: List.map JVal.jstr rest)
        = if str_contains_sub ("bad_alloc").toList s = true then Except.ok (true, JVal.jstr s)
          else is_bad_alloc (List.map JVal.jstr rest) := rfl
    cases hcs : str_contains_sub ("bad_alloc").toList s with
    | true =>
      rw [hstep, if_pos hcs, List.find?_cons_of_pos _ hcs]
    | false =>
      have hne : ¬(str_contains_sub ("bad_alloc").toList s = true) := by
        rw [hcs]
        exact Bool.false_ne_true
      rw [hstep, if_neg hne, List.find?_cons_of_neg _ hne]
      exact ih

/-- C6 (confirmed): for every job report with a non-zero top-level
`exitCode` whose extracted error-detail messages contain one mentioning
`bad_alloc`, `process_job_report` classifies BAD_ALLOC and attaches the
first such matching message as the diagnostic. -/
theorem c6_bad_alloc_classification (md : JVal) (job : Job) (strs : List Str)
    (n : Int) (d : Str)
    (hx : jval_subscript_str md (("exitCode").toList) = some (.jnum n))
    (hn : n ≠ 0)
    (he : get_job_report_errors md = .ok (strs.map .jstr))
    (hd : strs.find? (fun s => str_contains_sub ("bad_alloc").toList s) = some d) :
    ∃ j, process_job_report (some md) job = .ok j ∧
      j.piloterrorcodes = [ErrCode.BADALLOC] ∧
      j.piloterrorcode = ErrCode.BADALLOC ∧
      j.piloterrordiag = .jstr d := by
  have hmd : md_exitcode md = .jnum n := by
    unfold md_exitcode
    rw [hx]
    rfl
  have hpe : py_eq (md_exitcode md) (.jnum 0) = false := by
    rw [hmd]
    unfold py_eq
    simp [hn]
  simp only [process_job_report, hpe, Bool.not_false, if_true]
  rw [he]
  dsimp only
  rw [is_bad_alloc_jstr, hd]
  exact ⟨_, rfl, rfl, rfl, rfl⟩

/-- Witness for C6: a concrete report with exit code 1 and messages
`segfault` and `alloc failure: bad_alloc` is classified BAD_ALLOC with the
latter as diagnostic. -/
theorem c6_bad_alloc_classification_witness :
    jval_subscript_str c6_wit_md (("exitCode").toList) = some (.jnum 1) ∧
    (1 : Int) ≠ 0 ∧
    get_job_report_errors c6_wit_md =
      .ok ([("segfault").toList, ("alloc failure: bad_alloc").toList].map .jstr) ∧
    [("segfault").toList, ("alloc failure: bad_alloc").toList].find?
      (fun s => str_contains_sub ("bad_alloc").toList s) =
      some (("alloc failure: bad_alloc").toList) ∧
    (∃ j, process_job_report (some c6_wit_md) job_default = .ok j ∧
      j.piloterrorcodes = [ErrCode.BADALLOC] ∧
      j.piloterrorcode = ErrCode.BADALLOC ∧
      j.piloterrordiag = .jstr (("alloc failure: bad_alloc").toList)) :=
  ⟨rfl, by decide, rfl, rfl,
    c6_bad_alloc_classification c6_wit_md job_default
      [("segfault").toList, ("alloc failure: bad_alloc").toList] 1
      (("alloc failure: bad_alloc").toList) rfl (by decide) rfl rfl⟩

/-- C9 (confirmed): event-count resolution tries the three sources in
order — job report `n_events`, XML metadata total, Athena summary files —
and each later source is consulted (appears in the trace) only when every
earlier source yielded no positive count; a positive count from a
higher-priority source is returned unchanged, never overwritten by a
lower-priority source.  (Per the spec, `count > 0` is the success
predicate of each tier.) -/
theorem c9_event_count_fallback (env : Env) (job j1 : Job)
    (h1 : find_number_of_events_in_jobreport env job = .ok j1) :
    (j1.nevents > 0 → find_number_of_events_traced env job = .ok (j1, [1])) ∧
    (j1.nevents ≤ 0 → env.xml_nevents > 0 →
      find_number_of_events_traced env job =
        .ok ({ j1 with nevents := env.xml_nevents }, [1, 2])) ∧
    (j1.nevents ≤ 0 → env.xml_nevents ≤ 0 →
      find_number_of_events_traced env job =
        .ok ((if env.summary_counts.2 > 0 then
                { (if env.summary_counts.1 > 0 then
                    { j1 with nevents := env.summary_counts.1 } else j1)
                  with neventsw := env.summary_counts.2 }
              else (if env.summary_counts.1 > 0 then
                { j1 with nevents := env.summary_counts.1 } else j1)),
             [1, 2, 3])) := by
  unfold find_number_of_events_traced
  rw [h1]
  simp only [bind, Except.bind]
  refine ⟨?_, ?_, ?_⟩
  · intro hpos
    rw [if_pos hpos]
  · intro hle hxml
    rw [if_neg (by omega)]
    unfold find_number_of_events_in_xml
    rw [if_pos hxml]
    rw [if_pos (show ({ j1 with nevents := env.xml_nevents } : Job).nevents > 0 from hxml)]
  · intro hle hxml
    rw [if_neg (by omega)]
    unfold find_number_of_events_in_xml
    rw [if_neg (show ¬(env.xml_nevents > 0) by omega)]
    rw [if_neg (show ¬(j1.nevents > 0) by omega)]

/-- Witness for C9: with `n_events = "7"` in the report attributes the
first source yields 7 and the trace stops at source 1. -/
theorem c9_event_count_fallback_witness :
    find_number_of_events_in_jobreport c9_wit_env job_default = .ok c9_wit_j1 ∧
    ((c9_wit_j1.nevents > 0 →
        find_number_of_events_traced c9_wit_env job_default = .ok (c9_wit_j1, [1])) ∧
      (c9_wit_j1.nevents ≤ 0 → c9_wit_env.xml_nevents > 0 →
        find_number_of_events_traced c9_wit_env job_default =
          .ok ({ c9_wit_j1 with nevents := c9_wit_env.xml_nevents }, [1, 2])) ∧
      (c9_wit_j1.nevents ≤ 0 → c9_wit_env.xml_nevents ≤ 0 →
        find_number_of_events_traced c9_wit_env job_default =
          .ok ((if c9_wit_env.summary_counts.2 > 0 then
                  { (if c9_wit_env.summary_counts.1 > 0 then
                      { c9_wit_j1 with nevents := c9_wit_env.summary_counts.1 }
                    else c9_wit_j1)
                    with neventsw := c9_wit_env.summary_counts.2 }
                else (if c9_wit_env.summary_counts.1 > 0 then
                  { c9_wit_j1 with nevents := c9_wit_env.summary_counts.1 }
                else c9_wit_j1)),
               [1, 2, 3]))) :=
  ⟨rfl, c9_event_count_fallback c9_wit_env job_default c9_wit_j1 rfl⟩

/-- C3 (code_bug exhibit): on a 146 report whose stdout tail contains no
URL at all, the diagnostic carries the hard-coded URL
`http://someurl.se/path` that the source appends to the tail
(`_tail += 'http://someurl.se/path'` in `set_error_nousertarball`), and
does NOT contain the `(source unknown)` placeholder that
`extract_tarball_url` is written to fall back to. -/
theorem c3_hardcoded_url_bug :
    str_contains_sub ("http://").toList c3_env.stdout_tail = false ∧
    str_contains_sub ("https://").toList c3_env.stdout_tail = false ∧
    interpret c3_env job_default = .ok (c3_expected, .jnum 146) ∧
    c3_expected.piloterrorcodes = [ErrCode.NOUSERTARBALL] ∧
    c3_expected.piloterrordiag = .jstr
      (("User tarball http://someurl.se/path cannot be downloaded from PanDA server").toList) ∧
    str_contains_sub ("(source unknown)").toList
      (("User tarball http://someurl.se/path cannot be downloaded from PanDA server").toList)
      = false :=
  ⟨by decide, by decide, rfl, rfl, by decide, by decide⟩

/-- C4 (code_bug exhibit): with machine features `hs06 = '100'` and
`total_cpu = '0'` (numeric strings), the rescale guard — whose third
conjunct `total_cpu != '0' or total_cpu != 0` is a tautology — admits the
division and the resulting ZeroDivisionError is not among the caught
exception types, so it propagates out of the metrics assembly.  The
integer 0 is stopped by truthiness, and a non-numeric hs06 is caught and
skipped, as the second and third conjuncts show. -/
theorem c4_zerodivision_bug :
    add_features_hs06 [(("hs06").toList, .jstr ("100").toList),
                       (("total_cpu").toList, .jstr ("0").toList)] 1
      = .error .zeroDivisionError ∧
    add_features_hs06 [(("hs06").toList, .jstr ("100").toList),
                       (("total_cpu").toList, .jnum 0)] 1 = .ok .skipped ∧
    add_features_hs06 [(("hs06").toList, .jstr ("abc").toList),
                       (("total_cpu").toList, .jnum 4)] 1 = .ok .skipped :=
  ⟨rfl, rfl, rfl⟩

/-- C5 (code_bug exhibit): on a report whose work attributes carry
`__db_time = 5` and `__db_data = '3000'`, `find_db_info` raises TypeError
(at the `'%d'` logging of the uncoerced string field) instead of setting
`dbdata` to the integer 3000 — which `int(...)` could have produced, as
the second conjunct shows; the source assigns `__db_data` without the
`int(...)` coercion its own `except ValueError` clause expects. -/
theorem c5_dbdata_not_coerced_bug :
    find_db_info [(("__db_time").toList, .jnum 5),
                  (("__db_data").toList, .jstr ("3000").toList)] job_default
      = .error .typeError ∧
    py_int (.jstr ("3000").toList) = .ok 3000 :=
  ⟨rfl, rfl⟩
